import Mathlib

/-!
Verification of the MySQL lock driver (`tooz/drivers/mysql.py`).

The driver implements a distributed mutex on top of a MySQL table
`tooz_locks` whose primary key is the lock `name`.  This file gives a
shallow embedding of that driver:

* the table is a `Store` (a flag saying whether the table exists plus a
  list of rows);
* every SQL statement the driver issues becomes a pure function
  `Store → Except SqlErr Store`, with `SqlErr` mirroring the pymysql
  exception classes the driver distinguishes (`ProgrammingError`,
  `IntegrityError`, and the remaining `MySQLError`s);
* a `World` threads the store together with one coordinator's
  `_acquired_locks` list, a fault-injection schedule for transient
  connection failures (one slot per executed statement / per
  `connect()` call), a trace of which connection each statement ran on,
  and a connection-id allocator;
* control flow (`try`/`except`, `raise`, the `@_retry.retry` decorator)
  becomes explicit `match`es on `Except` values, with escaping Python
  exceptions collected in `PyErr`.

`tooz/drivers/_retry.py` is not part of the sources; the retry
decorator (`retryLoop`) is modelled from the spec, as documented at its
definition.  Everything else is translated directly from
`tooz/drivers/mysql.py`.
-/

namespace ToozMySQL

/-- A row of the `tooz_locks` table: the lock `name` (primary key), the
owning member (`created_by`) and the insertion timestamp (`created_at`,
modelled as a natural number).  `updated_at` is never written by any
reachable code path of the driver, so it is omitted. -/
structure Row where
  name : String
  created_by : String
  created_at : Nat
deriving DecidableEq, Repr

/-- The backing MySQL database: whether the `tooz_locks` table exists,
and its rows. -/
structure Store where
  tableExists : Bool
  rows : List Row
deriving DecidableEq, Repr

/-- The pymysql exception classes the driver's handlers distinguish.
`operationalError` stands for any `MySQLError` that is neither a
`ProgrammingError` nor an `IntegrityError` (e.g. a dropped
connection); both specific classes are subclasses of `MySQLError`. -/
inductive SqlErr
  | programmingError
  | integrityError
  | operationalError
deriving DecidableEq, Repr

/-- The `INSERT INTO tooz_locks (name, created_at, created_by) VALUES
(%s, CURRENT_TIMESTAMP, %s)` statement (lines 51-54).  It raises
`ProgrammingError` when the table does not exist, `IntegrityError`
when the primary-key constraint on `name` is violated, and otherwise
appends the row. -/
def sqlInsert (name member : String) (now : Nat) (s : Store) : Except SqlErr Store :=
  if s.tableExists = false then .error .programmingError
  else if s.rows.any (fun r => r.name = name) then .error .integrityError
  else .ok { s with rows := s.rows ++ [⟨name, member, now⟩] }

/-- The `CREATE TABLE tooz_locks (...)` statement (lines 59-70).  It has
no `IF NOT EXISTS` clause, so when the table already exists MySQL
rejects it with a `MySQLError` (error 1050). -/
def sqlCreateTable (s : Store) : Except SqlErr Store :=
  if s.tableExists then .error .operationalError
  else .ok { s with tableExists := true }

/-- The `DELETE FROM tooz_locks WHERE name = %s AND created_by = %s`
statement (lines 104-107): removes exactly the rows matching both the
name and the owner. -/
def sqlDelete (name member : String) (s : Store) : Except SqlErr Store :=
  if s.tableExists = false then .error .programmingError
  else .ok { s with rows := s.rows.filter (fun r => !(r.name = name && r.created_by = member)) }

/-- The `UPDATE tooz_locks WHERE name = %s AND created_by = %s`
statement (lines 124-127).  It has no `SET` clause, which MySQL rejects
as a syntax error; the statement is unreachable anyway (see
`lockHeartbeat`). -/
def sqlUpdateHeartbeat (_ : Store) : Except SqlErr Store :=
  .error .programmingError

/-- A `MySQLLock` handle: its `name` and the connection it opened for
itself in `__init__` (line 38,
`self._conn = MySQLDriver.get_connection(...)`).  Connections are
identified by the id the allocator handed out; since every handle gets
a fresh connection, structural equality of `LockHandle` coincides with
Python object identity for handles created through `get_lock`, which
is what `self in self.coord._acquired_locks` (line 144) tests. -/
structure LockHandle where
  name : String
  conn : Nat
deriving DecidableEq, Repr

/-- The `MySQLDriver` coordinator: its `_member_id` and the connection
`_conn` it opened in `_start` (lines 175-177). -/
structure CoordState where
  member : String
  conn : Nat
deriving DecidableEq, Repr

/-- One coordinator's in-memory world: the shared store, the
coordinator's `_acquired_locks` list, fault-injection schedules for
statement executions and for `connect()` calls (`true` = that call
fails with a transient `MySQLError`; an empty schedule means no
faults), a counter of reconnect attempts, the connection id each
statement execution used, the connection ids that were closed, and the
allocator for fresh connection ids. -/
structure World where
  store : Store
  registry : List LockHandle
  stmtFaults : List Bool
  connFaults : List Bool
  reconnects : Nat
  connTrace : List Nat
  closedConns : List Nat
  nextConn : Nat
deriving DecidableEq, Repr

/-- Execute one SQL statement on connection `conn` inside
`with <conn> as cur: cur.execute(...)`.  The next slot of the
fault-injection schedule decides whether this execution fails with a
transient `MySQLError` (the statement then does not reach the store);
either way the attempt is recorded in the connection trace. -/
def execStmt (conn : Nat) (op : Store → Except SqlErr Store) (w : World) :
    Except (SqlErr × World) World :=
  let fault := w.stmtFaults.headD false
  let w1 := { w with stmtFaults := w.stmtFaults.tail, connTrace := w.connTrace ++ [conn] }
  if fault then .error (.operationalError, w1)
  else
    match op w1.store with
    | .ok s => .ok { w1 with store := s }
    | .error e => .error (e, w1)

/-- A `self._conn.connect()` reconnect attempt; the next slot of the
`connFaults` schedule decides whether it raises a `MySQLError`.  Every
attempt is counted. -/
def reconnect (w : World) : Bool × World :=
  let fail := w.connFaults.headD false
  (!fail, { w with connFaults := w.connFaults.tail, reconnects := w.reconnects + 1 })

/-- Outcome of a driver call as seen by its Python caller. -/
inductive PyErr
  | toozError
  | lockAcquireFailed
  | blockingTimeout
  | retryEscape
  | attributeError
deriving DecidableEq, Repr

/-- Result of a lock operation: a returned value (`ret` for a `bool`,
`retNone` for Python's implicit `None`) or an escaping exception. -/
inductive LockRes
  | ret : Bool → LockRes
  | retNone : LockRes
  | exc : PyErr → LockRes
deriving DecidableEq, Repr

/-- Result of one execution of the inner `_lock()` body as the retry
decorator sees it: a returned value, a raised `_retry.Retry`, or any
other escaping exception. -/
inductive LockStep
  | ret : Bool → LockStep
  | retrySignal : LockStep
  | exc : PyErr → LockStep
deriving DecidableEq, Repr

/-- The body of `_lock()` inside `MySQLLock.acquire` (lines 43-95),
translated clause by clause:

* `if self.acquired is True:` — membership of the handle in the
  coordinator's `_acquired_locks`; blocking mode raises `_retry.Retry`,
  non-blocking returns `False`;
* the `INSERT` succeeds: append `self` to `_acquired_locks`, return
  `True`;
* `except pymysql.ProgrammingError`: run `CREATE TABLE` on the same
  cursor; success raises `_retry.Retry`, any `MySQLError` from the
  create becomes a `ToozError` (`raise_with_cause`, lines 72-76);
* `except pymysql.IntegrityError`: `raise_with_cause(LockAcquireFailed)`
  (lines 77-81), in blocking and non-blocking mode alike;
* `except pymysql.MySQLError`: `self._conn.connect()`; success raises
  `_retry.Retry`, failure becomes a `ToozError` (lines 83-91).

The `interfere` argument is the concurrent environment: a store action
performed by other clients between the failed `INSERT` and the
`CREATE TABLE` statement (identity when the driver runs in isolation);
it is the interleaving point at which another client may provision the
table first. -/
def lockBody (interfere : Store → Store) (lk : LockHandle) (co : CoordState)
    (now : Nat) (blocking : Bool) (w : World) : LockStep × World :=
  if lk ∈ w.registry then
    if blocking then (.retrySignal, w) else (.ret false, w)
  else
    match execStmt lk.conn (sqlInsert lk.name co.member now) w with
    | .ok w1 => (.ret true, { w1 with registry := w1.registry ++ [lk] })
    | .error (.programmingError, w1) =>
      let w2 := { w1 with store := interfere w1.store }
      match execStmt lk.conn sqlCreateTable w2 with
      | .ok w3 => (.retrySignal, w3)
      | .error (_, w3) => (.exc .toozError, w3)
    | .error (.integrityError, w1) => (.exc .lockAcquireFailed, w1)
    | .error (.operationalError, w1) =>
      match reconnect w1 with
      | (true, w2) => (.retrySignal, w2)
      | (false, w2) => (.exc .toozError, w2)

/-- Modelled from the spec: `tooz/drivers/_retry.py` is not among the
sources.  Section 5 describes `@_retry.retry(stop_max_delay=blocking)`
as a client-side retry loop with a bounded overall deadline derived
from `blocking` — `false` means try once, a numeric timeout bounds the
loop, `true` means block until success — re-running the body whenever
it raises `_retry.Retry` and surfacing a blocking-timeout condition
once the deadline elapses.  `fuel` is the number of further attempts
the deadline still allows (`0` for non-blocking). -/
def retryLoop (f : World → LockStep × World) : Nat → World → LockRes × World
  | 0, w =>
    match f w with
    | (.ret b, w1) => (.ret b, w1)
    | (.exc e, w1) => (.exc e, w1)
    | (.retrySignal, w1) => (.exc .blockingTimeout, w1)
  | fuel + 1, w =>
    match f w with
    | (.ret b, w1) => (.ret b, w1)
    | (.exc e, w1) => (.exc e, w1)
    | (.retrySignal, w1) => retryLoop f fuel w1

/-- `MySQLLock.acquire` (lines 40-97) with an explicit environment
action `interfere` (see `lockBody`): the retry decorator applied to
`_lock`. -/
def acquireWith (interfere : Store → Store) (lk : LockHandle) (co : CoordState)
    (now : Nat) (blocking : Bool) (fuel : Nat) (w : World) : LockRes × World :=
  retryLoop (lockBody interfere lk co now blocking) fuel w

/-- `MySQLLock.acquire` running in isolation (no concurrent store
action by other clients). -/
def acquire (lk : LockHandle) (co : CoordState) (now : Nat) (blocking : Bool)
    (fuel : Nat) (w : World) : LockRes × World :=
  acquireWith id lk co now blocking fuel w

/-- `MySQLLock.release` (lines 99-118), translated clause by clause:

* `if not self.acquired: return False`;
* the `DELETE` succeeds: `_acquired_locks.remove(self)` (removes the
  first occurrence), return `True`;
* `except pymysql.MySQLError` (this one handler catches every store
  error): `self._conn.connect()`; if the reconnect succeeds the code
  raises `_retry.Retry`, but `release` is not wrapped in any retry
  decorator, so the `Retry` exception escapes to the caller
  (`retryEscape`); if the reconnect fails, `ToozError`. -/
def release (lk : LockHandle) (co : CoordState) (w : World) : LockRes × World :=
  if lk ∈ w.registry then
    match execStmt lk.conn (sqlDelete lk.name co.member) w with
    | .ok w1 => (.ret true, { w1 with registry := w1.registry.erase lk })
    | .error (_, w1) =>
      match reconnect w1 with
      | (true, w2) => (.exc .retryEscape, w2)
      | (false, w2) => (.exc .toozError, w2)
  else (.ret false, w)

/-- The attribute names defined on a `MySQLLock` instance: `name` from
the `locking.Lock` base class, the fields set in `__init__`, the class
attribute and the methods/property of the class body (lines 30-144).
Note that `acquired` is defined (the property at lines 142-144) while
`aquired` is not. -/
def mysqlLockAttrs : List String :=
  ["name", "coord", "_conn", "MYSQL_DEFAULT_PORT",
   "acquire", "release", "heartbeat", "acquired"]

/-- `MySQLLock.heartbeat` (lines 120-136).  Its first statement is
`if self.aquired:` — the attribute is misspelled (`aquired` instead of
the `acquired` property), so the attribute lookup raises
`AttributeError` before anything else happens.  The guarded branch
(which would run the `SET`-less `UPDATE` through the coordinator's
connection `self.coord._conn`, with the same reconnect handling as
`release`) is therefore dead code. -/
def lockHeartbeat (lk : LockHandle) (co : CoordState) (w : World) : LockRes × World :=
  if mysqlLockAttrs.contains "aquired" then
    if lk ∈ w.registry then
      match execStmt co.conn sqlUpdateHeartbeat w with
      | .ok w1 => (.retNone, w1)
      | .error (_, w1) =>
        match reconnect w1 with
        | (true, w2) => (.exc .retryEscape, w2)
        | (false, w2) => (.exc .toozError, w2)
    else (.retNone, w)
  else (.exc .attributeError, w)

/-- The loop of `MySQLDriver.heartbeat` (lines 187-192):
`for _lock in self._acquired_locks: try: _lock.heartbeat() except:
continue` — the bare `except` discards every exception, of any type,
and moves on to the next lock.  The function returns the final world
together with the list of locks whose heartbeat was attempted
(`lockHeartbeat` never modifies `_acquired_locks`, so iterating the
entry snapshot coincides with Python's live-list iteration).  `g` is
the per-lock heartbeat call. -/
def heartbeatLoop (g : LockHandle → World → LockRes × World) :
    List LockHandle → World → World × List LockHandle
  | [], w => (w, [])
  | l :: ls, w =>
    let w1 := (g l w).2
    let (w2, att) := heartbeatLoop g ls w1
    (w2, l :: att)

/-- `MySQLDriver.heartbeat` with an arbitrary per-lock heartbeat
behaviour `g` (so it can be stated for every exception a lock's
heartbeat might raise): the method body is exactly the swallowing loop
followed by Python's implicit `return None`. -/
def driverHeartbeatWith (g : LockHandle → World → LockRes × World) (w : World) :
    LockRes × World × List LockHandle :=
  let (w1, att) := heartbeatLoop g w.registry w
  (.retNone, w1, att)

/-- `MySQLDriver.heartbeat` (lines 187-192) calling the actual
`MySQLLock.heartbeat` of each held lock. -/
def driverHeartbeat (co : CoordState) (w : World) : LockRes × World × List LockHandle :=
  driverHeartbeatWith (fun l => lockHeartbeat l co) w

/-- Allocate a fresh connection id
(`MySQLDriver.get_connection`, lines 221-248). -/
def allocConn (w : World) : Nat × World :=
  (w.nextConn, { w with nextConn := w.nextConn + 1 })

/-- `MySQLDriver.__init__` plus `_start` (lines 167-177): record the
member id and open the coordinator's own connection `self._conn`. -/
def coordStart (member : String) (w : World) : CoordState × World :=
  let (c, w1) := allocConn w
  (⟨member, c⟩, w1)

/-- `MySQLDriver.get_lock` → `MySQLLock.__init__` (lines 35-38,
194-195): the handle opens a connection of its own
(`self._conn = MySQLDriver.get_connection(...)`, line 38). -/
def getLock (name : String) (_ : CoordState) (w : World) : LockHandle × World :=
  let (c, w1) := allocConn w
  (⟨name, c⟩, w1)

/-- The loop of `MySQLDriver._stop` (lines 180-184):
`for _lock in self._acquired_locks: try: _lock.release() except:
continue`.  Python's list iterator keeps an index into the live list:
each step reads `_acquired_locks[i]`, runs the body, and increments
`i`, stopping once `i` reaches the current length — while a successful
`release` removes the released handle from that same list.  `fuel`
bounds the iteration count; since the body never lengthens the list
and `i` grows by one per step, `registry.length` iterations always
suffice. -/
def stopLoop (co : CoordState) : Nat → Nat → World → World
  | 0, _, w => w
  | fuel + 1, i, w =>
    if h : i < w.registry.length then
      let lk := w.registry.get ⟨i, h⟩
      let w1 := (release lk co w).2
      stopLoop co fuel (i + 1) w1
    else w

/-- `MySQLDriver._stop` (lines 179-185): best-effort release loop, then
`self._conn.close()`. -/
def coordStop (co : CoordState) (w : World) : World :=
  let w1 := stopLoop co w.registry.length 0 w
  { w1 with closedConns := w1.closedConns ++ [co.conn] }

/-- Number of rows of the table carrying a given lock name. -/
def countName (name : String) (rows : List Row) : Nat :=
  (rows.filter (fun r => r.name = name)).length

/-- A world for a freshly connected client over the shared store `s`:
empty held-lock registry, no injected faults. -/
def freshWorld (s : Store) : World :=
  { store := s, registry := [], stmtFaults := [], connFaults := [],
    reconnects := 0, connTrace := [], closedConns := [], nextConn := 0 }

/-- One concurrent caller in the mutual-exclusion race: a fresh
coordinator (its own connection, empty `_acquired_locks`) issues
`acquire(name, blocking=False)` against the shared store `s`.  The
store insert of line 51 is a single atomic statement, so an arbitrary
interleaving of `n` such callers is a sequence of these steps. -/
def raceStep (name member : String) (now : Nat) (s : Store) : LockRes × Store :=
  let (co, w1) := coordStart member (freshWorld s)
  let (lk, w2) := getLock name co w1
  let (r, w3) := acquire lk co now false 0 w2
  (r, w3.store)

/-- Run the non-blocking acquisition race: each member in turn performs
its atomic `raceStep` on the store left by the previous one.  Returns
the list of per-caller results and the list of intermediate stores. -/
def runRace (name : String) (now : Nat) : List String → Store → List LockRes × List Store
  | [], _ => ([], [])
  | m :: ms, s =>
    let (r, s1) := raceStep name m now s
    let (rs, ss) := runRace name now ms s1
    (r :: rs, s1 :: ss)

/-! ### Helper lemmas -/

/-- If the body returns a value on its first run, the retry decorator
returns it unchanged, whatever the remaining deadline. -/
theorem retryLoop_ret {f : World → LockStep × World} {b : Bool} {w w1 : World}
    (h : f w = (.ret b, w1)) (fuel : Nat) : retryLoop f fuel w = (.ret b, w1) := by
  cases fuel <;> simp [retryLoop, h]

/-- If the body raises a non-`Retry` exception on its first run, the
retry decorator propagates it, whatever the remaining deadline. -/
theorem retryLoop_exc {f : World → LockStep × World} {e : PyErr} {w w1 : World}
    (h : f w = (.exc e, w1)) (fuel : Nat) : retryLoop f fuel w = (.exc e, w1) := by
  cases fuel <;> simp [retryLoop, h]

/-- If the body keeps raising `_retry.Retry` without changing the
world, the retry loop runs the deadline down and surfaces the
blocking-timeout condition. -/
theorem retryLoop_stuck {f : World → LockStep × World} {w : World}
    (h : f w = (.retrySignal, w)) (fuel : Nat) :
    retryLoop f fuel w = (.exc .blockingTimeout, w) := by
  induction fuel with
  | zero => simp [retryLoop, h]
  | succ n ih => simp [retryLoop, h, ih]

/-- The misspelled attribute is not among the attributes of
`MySQLLock`. -/
theorem mysqlLockAttrs_no_aquired : mysqlLockAttrs.contains "aquired" = false := by
  decide

/-- `MySQLLock.heartbeat` raises `AttributeError` on every input,
leaving the world untouched: its first statement reads the undefined
attribute `self.aquired`. -/
theorem lockHeartbeat_eq (lk : LockHandle) (co : CoordState) (w : World) :
    lockHeartbeat lk co w = (.exc .attributeError, w) := by
  simp only [lockHeartbeat]
  rw [if_neg (by decide)]

/-- The heartbeat loop attempts every held lock, no matter what the
per-lock call returns or raises. -/
theorem heartbeatLoop_attempted (g : LockHandle → World → LockRes × World)
    (ls : List LockHandle) (w : World) : (heartbeatLoop g ls w).2 = ls := by
  induction ls generalizing w with
  | nil => simp [heartbeatLoop]
  | cons l ls ih => simp [heartbeatLoop, ih]

/-- With the actual (always-`AttributeError`) per-lock heartbeat, the
loop leaves the world unchanged. -/
theorem heartbeatLoop_actual (co : CoordState) (ls : List LockHandle) (w : World) :
    (heartbeatLoop (fun l => lockHeartbeat l co) ls w).1 = w := by
  induction ls generalizing w with
  | nil => simp [heartbeatLoop]
  | cons l ls ih => simp [heartbeatLoop, lockHeartbeat_eq, ih]

/-- Clean-path computation of `_lock()`: when the handle is not yet
held, no fault is injected, the table exists and no row carries the
lock's name, the body inserts the row, registers the handle and
returns `True`. -/
theorem lockBody_insert_ok (itf : Store → Store) (lk : LockHandle) (co : CoordState)
    (now : Nat) (b : Bool) (w : World)
    (h1 : lk ∉ w.registry) (h2 : w.stmtFaults = [])
    (h3 : w.store.tableExists = true)
    (h4 : w.store.rows.any (fun r => r.name = lk.name) = false) :
    lockBody itf lk co now b w =
      (.ret true,
       { w with stmtFaults := [], connTrace := w.connTrace ++ [lk.conn],
                store := { w.store with rows := w.store.rows ++ [⟨lk.name, co.member, now⟩] },
                registry := w.registry ++ [lk] }) := by
  simp [lockBody, execStmt, sqlInsert, h1, h2, h3, h4]

/-- Contended-path computation of `_lock()`: when the handle is not
held by this coordinator but some row already carries the name, the
`INSERT` hits the primary-key constraint and the body raises
`LockAcquireFailed`, in blocking and non-blocking mode alike. -/
theorem lockBody_integrity (itf : Store → Store) (lk : LockHandle) (co : CoordState)
    (now : Nat) (b : Bool) (w : World)
    (h1 : lk ∉ w.registry) (h2 : w.stmtFaults = [])
    (h3 : w.store.tableExists = true)
    (h4 : w.store.rows.any (fun r => r.name = lk.name) = true) :
    lockBody itf lk co now b w =
      (.exc .lockAcquireFailed,
       { w with stmtFaults := [], connTrace := w.connTrace ++ [lk.conn] }) := by
  simp [lockBody, execStmt, sqlInsert, h1, h2, h3, h4]

/-- A caller racing on a free name wins: its atomic insert succeeds
and the store gains exactly its row. -/
theorem raceStep_ok (name member : String) (now : Nat) (s : Store)
    (h1 : s.tableExists = true)
    (h2 : s.rows.any (fun r => r.name = name) = false) :
    raceStep name member now s =
      (.ret true, { s with rows := s.rows ++ [⟨name, member, now⟩] }) := by
  simp [raceStep, coordStart, getLock, allocConn, acquire, acquireWith, retryLoop,
        lockBody, freshWorld, execStmt, sqlInsert, h1, h2]

/-- A caller racing on a taken name loses: the insert hits the
uniqueness constraint, `LockAcquireFailed` is raised and the store is
unchanged. -/
theorem raceStep_contended (name member : String) (now : Nat) (s : Store)
    (h1 : s.tableExists = true)
    (h2 : s.rows.any (fun r => r.name = name) = true) :
    raceStep name member now s = (.exc .lockAcquireFailed, s) := by
  simp [raceStep, coordStart, getLock, allocConn, acquire, acquireWith, retryLoop,
        lockBody, freshWorld, execStmt, sqlInsert, h1, h2]

/-- Once a row holds the name, every further racing caller fails with
`LockAcquireFailed` and the store never changes. -/
theorem runRace_contended (name : String) (now : Nat) (ms : List String) (s : Store)
    (h1 : s.tableExists = true)
    (h2 : s.rows.any (fun r => r.name = name) = true) :
    runRace name now ms s =
      (ms.map (fun _ => .exc .lockAcquireFailed), ms.map (fun _ => s)) := by
  induction ms with
  | nil => simp [runRace]
  | cons m ms ih => simp [runRace, raceStep_contended name m now s h1 h2, ih]

/-! ### Claim theorems -/

/-- C1: for every lock name and every set of concurrent callers each
invoking `acquire(name, blocking=False)` against the same store —
modelled as an arbitrary interleaving of the callers' single atomic
`INSERT` statements, i.e. a sequence of `raceStep`s — exactly one
caller's acquire returns `True` (`count` of `.ret true` is 1), every
other caller observes the acquire-failure signal `LockAcquireFailed`
(or `False`), and at every point in time at most one row for the name
exists in the lock table. -/
theorem acquire_mutual_exclusion (name m0 : String) (now : Nat) (ms : List String)
    (s : Store) (h1 : s.tableExists = true)
    (h2 : s.rows.any (fun r => r.name = name) = false) :
    ((runRace name now (m0 :: ms) s).1.count (.ret true) = 1) ∧
    (∀ r ∈ (runRace name now (m0 :: ms) s).1,
       r = .ret true ∨ r = .exc .lockAcquireFailed) ∧
    (∀ t ∈ (runRace name now (m0 :: ms) s).2, countName name t.rows ≤ 1) := by
  have hstep := raceStep_ok name m0 now s h1 h2
  have h1' : ({ s with rows := s.rows ++ [⟨name, m0, now⟩] } : Store).tableExists = true := h1
  have h2' : ({ s with rows := s.rows ++ [⟨name, m0, now⟩] } : Store).rows.any
      (fun r => r.name = name) = true := by
    simp [List.any_append]
  have h0 : countName name s.rows = 0 := by
    simp only [countName, List.length_eq_zero, List.filter_eq_nil_iff]
    intro a ha
    have := (List.any_eq_false.mp h2) a ha
    simpa using this
  have hc1 : countName name ({ s with rows := s.rows ++ [⟨name, m0, now⟩] } : Store).rows = 1 := by
    simp [countName, List.filter_append]
    simpa [countName] using h0
  have hrun : runRace name now (m0 :: ms) s =
      (.ret true :: ms.map (fun _ => .exc .lockAcquireFailed),
       ({ s with rows := s.rows ++ [⟨name, m0, now⟩] } : Store) ::
         ms.map (fun _ => { s with rows := s.rows ++ [⟨name, m0, now⟩] })) := by
    simp [runRace, hstep, runRace_contended name now ms _ h1' h2']
  rw [hrun]
  refine ⟨?_, ?_, ?_⟩
  · simp [List.count_cons, List.count_eq_zero, List.mem_map]
  · intro r hr
    rcases List.mem_cons.1 hr with h | h
    · exact Or.inl h
    · rcases List.mem_map.1 h with ⟨a, _, rfl⟩
      exact Or.inr rfl
  · intro t ht
    rcases List.mem_cons.1 ht with h | h
    · rw [h, hc1]
    · rcases List.mem_map.1 h with ⟨a, _, rfl⟩
      rw [hc1]

/-- Witness for C1: three callers `a`, `b`, `c` race for lock `L` on a
fresh store; the hypotheses hold and exactly one acquire returns
`True`. -/
theorem acquire_mutual_exclusion_witness :
    (⟨true, []⟩ : Store).tableExists = true ∧
    (⟨true, []⟩ : Store).rows.any (fun r => r.name = "L") = false ∧
    (((runRace "L" 7 ["a", "b", "c"] ⟨true, []⟩).1.count (.ret true) = 1) ∧
     (∀ r ∈ (runRace "L" 7 ["a", "b", "c"] ⟨true, []⟩).1,
        r = .ret true ∨ r = .exc .lockAcquireFailed) ∧
     (∀ t ∈ (runRace "L" 7 ["a", "b", "c"] ⟨true, []⟩).2, countName "L" t.rows ≤ 1)) :=
  ⟨rfl, rfl, acquire_mutual_exclusion "L" "a" 7 ["b", "c"] ⟨true, []⟩ rfl rfl⟩

/-- A world in which the name `L` is already taken by another owner
while this coordinator holds nothing: the state claim C2 makes a
prediction about. -/
def wTakenByOther : World := freshWorld ⟨true, [⟨"L", "other", 0⟩]⟩

/-- Counterexample for C2: the claim says a non-blocking acquire that
hits a uniqueness violation "does not raise an error" and "returns
false"; on this concrete input the `except pymysql.IntegrityError`
branch raises `LockAcquireFailed` instead, so the acquire does not
return `False`. -/
theorem acquire_contention_raises_cex :
    (acquire ⟨"L", 1⟩ ⟨"me", 0⟩ 5 false 0 wTakenByOther).1 = .exc .lockAcquireFailed ∧
    (acquire ⟨"L", 1⟩ ⟨"me", 0⟩ 5 false 0 wTakenByOther).1 ≠ .ret false ∧
    (acquire ⟨"L", 1⟩ ⟨"me", 0⟩ 5 true 9 wTakenByOther).1 = .exc .lockAcquireFailed := by
  refine ⟨rfl, ?_, rfl⟩
  decide

/-- C2 as amended: when the lock is already recorded as held by this
coordinator, acquire does not raise — non-blocking returns `false`,
blocking retries until the deadline and then surfaces the
blocking-timeout condition.  But when the insert hits a uniqueness
violation (a row for the name already exists), acquire raises
`LockAcquireFailed` wrapping the cause, in non-blocking and blocking
mode alike: it neither returns `false` nor retries. -/
theorem acquire_contention_amended (lk : LockHandle) (co : CoordState)
    (now fuel : Nat) (w : World) :
    (lk ∉ w.registry → w.stmtFaults = [] → w.store.tableExists = true →
      w.store.rows.any (fun r => r.name = lk.name) = true →
      ∀ b : Bool, (acquire lk co now b fuel w).1 = .exc .lockAcquireFailed) ∧
    (lk ∈ w.registry → acquire lk co now false fuel w = (.ret false, w)) ∧
    (lk ∈ w.registry → acquire lk co now true fuel w = (.exc .blockingTimeout, w)) := by
  refine ⟨?_, ?_, ?_⟩
  · intro h1 h2 h3 h4 b
    rw [acquire, acquireWith,
        retryLoop_exc (lockBody_integrity id lk co now b w h1 h2 h3 h4) fuel]
  · intro h
    have hb : lockBody id lk co now false w = (.ret false, w) := by
      simp [lockBody, h]
    rw [acquire, acquireWith, retryLoop_ret hb fuel]
  · intro h
    have hb : lockBody id lk co now true w = (.retrySignal, w) := by
      simp [lockBody, h]
    rw [acquire, acquireWith, retryLoop_stuck hb fuel]

/-- A world in which this coordinator already holds `L`. -/
def wHoldsL : World :=
  { freshWorld ⟨true, [⟨"L", "me", 0⟩]⟩ with registry := [⟨"L", 1⟩] }

/-- Witness for C2: every hypothesis of `acquire_contention_amended`
discharged on concrete inputs — a taken name raises
`LockAcquireFailed` in both modes, an already-held lock yields `false`
non-blocking and a blocking timeout when blocking. -/
theorem acquire_contention_amended_witness :
    ((⟨"L", 1⟩ : LockHandle) ∉ wTakenByOther.registry ∧
     wTakenByOther.stmtFaults = [] ∧
     wTakenByOther.store.tableExists = true ∧
     wTakenByOther.store.rows.any (fun r => r.name = "L") = true ∧
     (acquire ⟨"L", 1⟩ ⟨"me", 0⟩ 5 false 0 wTakenByOther).1 = .exc .lockAcquireFailed) ∧
    ((⟨"L", 1⟩ : LockHandle) ∈ wHoldsL.registry ∧
     acquire ⟨"L", 1⟩ ⟨"me", 0⟩ 5 false 0 wHoldsL = (.ret false, wHoldsL) ∧
     acquire ⟨"L", 1⟩ ⟨"me", 0⟩ 5 true 4 wHoldsL = (.exc .blockingTimeout, wHoldsL)) :=
  ⟨⟨by decide, rfl, rfl, rfl,
    (acquire_contention_amended ⟨"L", 1⟩ ⟨"me", 0⟩ 5 0 wTakenByOther).1
      (by decide) rfl rfl rfl false⟩,
   ⟨by decide,
    (acquire_contention_amended ⟨"L", 1⟩ ⟨"me", 0⟩ 5 0 wHoldsL).2.1 (by decide),
    (acquire_contention_amended ⟨"L", 1⟩ ⟨"me", 0⟩ 5 4 wHoldsL).2.2 (by decide)⟩⟩

/-- C3: for every lock not currently held (and no row carrying its
name, table present, no transient fault), a successful acquire inserts
exactly one row `(name, created_by = member_id, created_at = now)`
into the lock table, registers the handle in the coordinator's
held-lock list, and returns `True` — in blocking and non-blocking mode
alike. -/
theorem acquire_fresh_inserts (lk : LockHandle) (co : CoordState)
    (now : Nat) (b : Bool) (fuel : Nat) (w : World)
    (h1 : lk ∉ w.registry) (h2 : w.stmtFaults = [])
    (h3 : w.store.tableExists = true)
    (h4 : w.store.rows.any (fun r => r.name = lk.name) = false) :
    (acquire lk co now b fuel w).1 = .ret true ∧
    (acquire lk co now b fuel w).2.store.rows
      = w.store.rows ++ [⟨lk.name, co.member, now⟩] ∧
    (acquire lk co now b fuel w).2.registry = w.registry ++ [lk] := by
  rw [acquire, acquireWith,
      retryLoop_ret (lockBody_insert_ok id lk co now b w h1 h2 h3 h4) fuel]
  exact ⟨rfl, rfl, rfl⟩

/-- Witness for C3: a fresh coordinator acquires `L` on an empty
table. -/
theorem acquire_fresh_inserts_witness :
    ((⟨"L", 1⟩ : LockHandle) ∉ (freshWorld ⟨true, []⟩).registry ∧
     (freshWorld ⟨true, []⟩).stmtFaults = [] ∧
     (freshWorld ⟨true, []⟩).store.tableExists = true ∧
     (freshWorld ⟨true, []⟩).store.rows.any (fun r => r.name = "L") = false) ∧
    ((acquire ⟨"L", 1⟩ ⟨"me", 0⟩ 5 false 0 (freshWorld ⟨true, []⟩)).1 = .ret true ∧
     (acquire ⟨"L", 1⟩ ⟨"me", 0⟩ 5 false 0 (freshWorld ⟨true, []⟩)).2.store.rows
       = (freshWorld ⟨true, []⟩).store.rows ++ [⟨"L", "me", 5⟩] ∧
     (acquire ⟨"L", 1⟩ ⟨"me", 0⟩ 5 false 0 (freshWorld ⟨true, []⟩)).2.registry
       = (freshWorld ⟨true, []⟩).registry ++ [⟨"L", 1⟩]) :=
  ⟨⟨by decide, rfl, rfl, rfl⟩,
   acquire_fresh_inserts ⟨"L", 1⟩ ⟨"me", 0⟩ 5 false 0 (freshWorld ⟨true, []⟩)
     (by decide) rfl rfl rfl⟩

/-- C4: `release` returns `False` and changes nothing when the lock is
not recorded as held by this coordinator; otherwise it deletes exactly
the rows matching both the lock's name and
`created_by = member_id`, removes the handle from the held-lock list,
never deletes a row owned by a different coordinator even when the
name matches, and a second release is a no-op returning `False`. -/
theorem release_owner_scoped (lk : LockHandle) (co : CoordState) (w : World) :
    (lk ∉ w.registry → release lk co w = (.ret false, w)) ∧
    (lk ∈ w.registry → w.stmtFaults = [] → w.store.tableExists = true →
      (release lk co w).1 = .ret true ∧
      (release lk co w).2.store.rows
        = w.store.rows.filter (fun r => !(r.name = lk.name && r.created_by = co.member)) ∧
      (release lk co w).2.registry = w.registry.erase lk ∧
      (∀ r ∈ w.store.rows, r.created_by ≠ co.member → r ∈ (release lk co w).2.store.rows) ∧
      (w.registry.Nodup → (release lk co (release lk co w).2).1 = .ret false)) := by
  constructor
  · intro h
    simp [release, h]
  · intro h h2 h3
    have hrel : release lk co w =
        (.ret true,
         { w with stmtFaults := [], connTrace := w.connTrace ++ [lk.conn],
                  store := { w.store with rows := w.store.rows.filter (fun r => !(r.name = lk.name && r.created_by = co.member)) },
                  registry := w.registry.erase lk }) := by
      simp [release, execStmt, sqlDelete, h, h2, h3]
    refine ⟨by rw [hrel], by rw [hrel], by rw [hrel], ?_, ?_⟩
    · intro r hr hne
      rw [hrel]
      simp only [List.mem_filter]
      exact ⟨hr, by simp [hne]⟩
    · intro hnd
      have hout : lk ∉ (release lk co w).2.registry := by
        rw [hrel]
        exact hnd.not_mem_erase
      generalize (release lk co w).2 = w2 at hout
      simp [release, hout]

/-- Witness for C4: releasing the held lock `L` deletes only this
owner's row — the row of the same name owned by `other` survives — and
a double release returns `False`; releasing a lock that was never held
is a no-op. -/
theorem release_owner_scoped_witness :
    ((⟨"M", 2⟩ : LockHandle) ∉ wHoldsL.registry ∧
     release ⟨"M", 2⟩ ⟨"me", 0⟩ wHoldsL = (.ret false, wHoldsL)) ∧
    ((⟨"L", 1⟩ : LockHandle) ∈ wHoldsL.registry ∧ wHoldsL.stmtFaults = [] ∧
     wHoldsL.store.tableExists = true ∧ wHoldsL.registry.Nodup ∧
     (release ⟨"L", 1⟩ ⟨"me", 0⟩ wHoldsL).1 = .ret true ∧
     (release ⟨"L", 1⟩ ⟨"me", 0⟩ wHoldsL).2.store.rows
       = wHoldsL.store.rows.filter (fun r => !(r.name = "L" && r.created_by = "me")) ∧
     (release ⟨"L", 1⟩ ⟨"me", 0⟩ wHoldsL).2.registry = wHoldsL.registry.erase ⟨"L", 1⟩ ∧
     (release ⟨"L", 1⟩ ⟨"me", 0⟩ (release ⟨"L", 1⟩ ⟨"me", 0⟩ wHoldsL).2).1 = .ret false) :=
  ⟨⟨by decide, (release_owner_scoped ⟨"M", 2⟩ ⟨"me", 0⟩ wHoldsL).1 (by decide)⟩,
   ⟨by decide, rfl, rfl, by decide,
    ((release_owner_scoped ⟨"L", 1⟩ ⟨"me", 0⟩ wHoldsL).2 (by decide) rfl rfl).1,
    ((release_owner_scoped ⟨"L", 1⟩ ⟨"me", 0⟩ wHoldsL).2 (by decide) rfl rfl).2.1,
    ((release_owner_scoped ⟨"L", 1⟩ ⟨"me", 0⟩ wHoldsL).2 (by decide) rfl rfl).2.2.1,
    ((release_owner_scoped ⟨"L", 1⟩ ⟨"me", 0⟩ wHoldsL).2 (by decide) rfl rfl).2.2.2.2
      (by decide)⟩⟩

/-- A coordinator holding locks `A`, `B`, `C` (in acquisition order),
their three rows present, no store faults: the shutdown-cleanup state
of claim C5. -/
def wStopABC : World :=
  { store := ⟨true, [⟨"A", "m", 0⟩, ⟨"B", "m", 0⟩, ⟨"C", "m", 0⟩]⟩,
    registry := [⟨"A", 1⟩, ⟨"B", 2⟩, ⟨"C", 3⟩],
    stmtFaults := [], connFaults := [], reconnects := 0,
    connTrace := [], closedConns := [], nextConn := 4 }

/-- C5 evaluated at its failing input: `_stop` iterates
`_acquired_locks` while each successful `release` removes the current
handle from that very list, so Python's index-based iteration skips
every other element.  Holding `{A, B, C}` with every release
succeeding, `stop` releases `A` and `C` but never attempts `B`: `B`'s
handle stays in the held-lock registry and `B`'s row stays in the
table, contradicting "releases each one" and "no held-lock entries
remain"; the connection is closed afterwards as stated. -/
theorem stop_skips_middle_lock :
    (coordStop ⟨"m", 0⟩ wStopABC).registry = [⟨"B", 2⟩] ∧
    (coordStop ⟨"m", 0⟩ wStopABC).store.rows = [⟨"B", "m", 0⟩] ∧
    (coordStop ⟨"m", 0⟩ wStopABC).closedConns = [0] := by
  refine ⟨?_, ?_, ?_⟩ <;> rfl

/-- C6 evaluated on every input: `MySQLLock.heartbeat` begins with
`if self.aquired:` — `aquired` is a misspelling of the `acquired`
property and is not an attribute of the class — so the call raises
`AttributeError` whether or not the lock is held.  The `updated_at`
refresh never executes, and the not-held case raises instead of
returning normally. -/
theorem heartbeat_attribute_error (lk : LockHandle) (co : CoordState) (w : World) :
    lockHeartbeat lk co w = (.exc .attributeError, w) :=
  lockHeartbeat_eq lk co w

/-- The held lock `L` whose `DELETE` hits one transient `MySQLError`
while the subsequent `self._conn.connect()` succeeds: the
reconnect-resilience scenario of claim C7. -/
def wRelFault : World :=
  { freshWorld ⟨true, [⟨"L", "m", 0⟩]⟩ with registry := [⟨"L", 1⟩], stmtFaults := [true] }

/-- The same single-transient-fault scenario for `acquire`. -/
def wAcqFault : World := { freshWorld ⟨true, []⟩ with stmtFaults := [true] }

/-- The reconnect itself failing during a release: the
reconnect-failure scenario of claim C7. -/
def wRelFault2 : World := { wRelFault with connFaults := [true] }

/-- C7 evaluated at its failing input.  For `acquire` the claim holds:
one transient statement fault causes exactly one reconnect and, the
reconnect succeeding, the decorated `_lock` body is re-run and the
acquire completes with `True`.  For `release` it does not: the code
raises `_retry.Retry` after the successful reconnect, but `release`
has no retry decorator, so the `Retry` exception escapes to the caller
— after exactly one reconnect the delete is never retried (the row is
still in the table) instead of the operation being "retried and
completing".  When the reconnect fails, release does surface
`ToozError` as claimed. -/
theorem release_retry_escapes :
    ((acquire ⟨"L", 1⟩ ⟨"m", 0⟩ 0 true 1 wAcqFault).1 = .ret true ∧
     (acquire ⟨"L", 1⟩ ⟨"m", 0⟩ 0 true 1 wAcqFault).2.reconnects = 1) ∧
    ((release ⟨"L", 1⟩ ⟨"m", 0⟩ wRelFault).1 = .exc .retryEscape ∧
     (release ⟨"L", 1⟩ ⟨"m", 0⟩ wRelFault).1 ≠ .ret true ∧
     (release ⟨"L", 1⟩ ⟨"m", 0⟩ wRelFault).2.reconnects = 1 ∧
     (release ⟨"L", 1⟩ ⟨"m", 0⟩ wRelFault).2.store.rows = [⟨"L", "m", 0⟩] ∧
     (release ⟨"L", 1⟩ ⟨"m", 0⟩ wRelFault).2.registry = [⟨"L", 1⟩]) ∧
    (release ⟨"L", 1⟩ ⟨"m", 0⟩ wRelFault2).1 = .exc .toozError := by
  refine ⟨⟨rfl, rfl⟩, ⟨rfl, ?_, rfl, rfl, rfl⟩, rfl⟩
  decide

/-- The retry decorator steps past one `_retry.Retry`. -/
theorem retryLoop_step {f : World → LockStep × World} {w w1 : World}
    (h : f w = (.retrySignal, w1)) (fuel : Nat) :
    retryLoop f (fuel + 1) w = retryLoop f fuel w1 := by
  simp [retryLoop, h]

/-- Provisioning computation of `_lock()` in isolation: with the table
absent, the `INSERT` raises `ProgrammingError`, the `CREATE TABLE`
succeeds, and the body raises `_retry.Retry` so the decorator re-runs
it. -/
theorem lockBody_provision (lk : LockHandle) (co : CoordState) (now : Nat)
    (b : Bool) (w : World)
    (h1 : lk ∉ w.registry) (h2 : w.stmtFaults = [])
    (h3 : w.store.tableExists = false) :
    lockBody id lk co now b w =
      (.retrySignal,
       { w with stmtFaults := [], connTrace := w.connTrace ++ [lk.conn, lk.conn],
                store := { w.store with tableExists := true } }) := by
  simp [lockBody, execStmt, sqlInsert, sqlCreateTable, h1, h2, h3]

/-- The concurrent client of the provisioning race: it creates the
`tooz_locks` table between this coordinator's failed `INSERT` and its
`CREATE TABLE` statement. -/
def otherClientCreates (s : Store) : Store := { s with tableExists := true }

/-- Provisioning computation of `_lock()` under the race: the `CREATE
TABLE` (which carries no `IF NOT EXISTS`) now hits an existing table,
MySQL rejects it, and the `except pymysql.MySQLError` handler of lines
72-76 turns that into `ToozError`. -/
theorem lockBody_provision_race (lk : LockHandle) (co : CoordState) (now : Nat)
    (b : Bool) (w : World)
    (h1 : lk ∉ w.registry) (h2 : w.stmtFaults = [])
    (h3 : w.store.tableExists = false) :
    lockBody otherClientCreates lk co now b w =
      (.exc .toozError,
       { w with stmtFaults := [], connTrace := w.connTrace ++ [lk.conn, lk.conn],
                store := { w.store with tableExists := true } }) := by
  simp [lockBody, execStmt, sqlInsert, sqlCreateTable, otherClientCreates, h1, h2, h3]

/-- Counterexample for C8: against a store with no lock table, when
another client creates the table between this coordinator's failed
insert and its `CREATE TABLE`, provisioning does not tolerate the race
— the acquire raises `ToozError` instead of retrying the insert and
succeeding. -/
theorem provisioning_race_cex :
    (acquireWith otherClientCreates ⟨"L", 1⟩ ⟨"m", 0⟩ 0 true 3 (freshWorld ⟨false, []⟩)).1
      = .exc .toozError ∧
    (acquireWith otherClientCreates ⟨"L", 1⟩ ⟨"m", 0⟩ 0 true 3 (freshWorld ⟨false, []⟩)).1
      ≠ .ret true := by
  refine ⟨rfl, ?_⟩
  decide

/-- C8 as amended: against a store where the lock table does not
exist, the first acquire provisions the schema transparently — the
`CREATE TABLE` succeeds, `_retry.Retry` re-runs the body, and the
retried insert succeeds with no special caller action.  The
provisioning is however not idempotent: in the race where another
client created the table first, the `CREATE TABLE` fails and the
acquire surfaces `ToozError` wrapping the cause instead of retrying
the insert. -/
theorem schema_provisioning_amended (lk : LockHandle) (co : CoordState)
    (now fuel : Nat) (w : World)
    (h1 : lk ∉ w.registry) (h2 : w.stmtFaults = [])
    (h3 : w.store.tableExists = false)
    (h4 : w.store.rows.any (fun r => r.name = lk.name) = false) :
    ((acquire lk co now true (fuel + 1) w).1 = .ret true ∧
     (acquire lk co now true (fuel + 1) w).2.store.tableExists = true ∧
     (acquire lk co now true (fuel + 1) w).2.store.rows
       = w.store.rows ++ [⟨lk.name, co.member, now⟩]) ∧
    (acquireWith otherClientCreates lk co now true (fuel + 1) w).1 = .exc .toozError := by
  constructor
  · rw [acquire, acquireWith,
        retryLoop_step (lockBody_provision lk co now true w h1 h2 h3) fuel]
    have h := lockBody_insert_ok id lk co now true
      { w with stmtFaults := [], connTrace := w.connTrace ++ [lk.conn, lk.conn],
               store := { w.store with tableExists := true } } h1 rfl rfl h4
    rw [retryLoop_ret h fuel]
    exact ⟨rfl, rfl, rfl⟩
  · rw [acquireWith,
        retryLoop_exc (lockBody_provision_race lk co now true w h1 h2 h3) (fuel + 1)]

/-- Witness for C8: a first acquire against a table-less store
provisions the schema and succeeds; the same acquire under the
creation race raises `ToozError`. -/
theorem schema_provisioning_amended_witness :
    ((⟨"L", 1⟩ : LockHandle) ∉ (freshWorld ⟨false, []⟩).registry ∧
     (freshWorld ⟨false, []⟩).stmtFaults = [] ∧
     (freshWorld ⟨false, []⟩).store.tableExists = false ∧
     (freshWorld ⟨false, []⟩).store.rows.any (fun r => r.name = "L") = false) ∧
    (((acquire ⟨"L", 1⟩ ⟨"m", 0⟩ 0 true 3 (freshWorld ⟨false, []⟩)).1 = .ret true ∧
      (acquire ⟨"L", 1⟩ ⟨"m", 0⟩ 0 true 3 (freshWorld ⟨false, []⟩)).2.store.tableExists = true ∧
      (acquire ⟨"L", 1⟩ ⟨"m", 0⟩ 0 true 3 (freshWorld ⟨false, []⟩)).2.store.rows
        = (freshWorld ⟨false, []⟩).store.rows ++ [⟨"L", "m", 0⟩]) ∧
     (acquireWith otherClientCreates ⟨"L", 1⟩ ⟨"m", 0⟩ 0 true 3 (freshWorld ⟨false, []⟩)).1
       = .exc .toozError) :=
  ⟨⟨by decide, rfl, rfl, rfl⟩,
   schema_provisioning_amended ⟨"L", 1⟩ ⟨"m", 0⟩ 0 2 (freshWorld ⟨false, []⟩)
     (by decide) rfl rfl rfl⟩

/-- The coordinator of the connection-ownership scenario: `_start` on
a fresh world. -/
def demoCo : CoordState := (coordStart "m" (freshWorld ⟨true, []⟩)).1

/-- The world after the coordinator opened its connection. -/
def demoW1 : World := (coordStart "m" (freshWorld ⟨true, []⟩)).2

/-- The lock handle the coordinator's `get_lock` creates. -/
def demoLk : LockHandle := (getLock "L" demoCo demoW1).1

/-- The world after the handle's `__init__` ran. -/
def demoW2 : World := (getLock "L" demoCo demoW1).2

/-- Counterexample for C9: `MySQLLock.__init__` (line 38) opens a
connection of its own, so after one `start` and one `get_lock` two
connections exist — the coordinator's (id 0) and the handle's (id 1) —
and the handle's `INSERT` executes on the handle's connection, not the
coordinator's shared one. -/
theorem lock_connection_cex :
    demoCo.conn = 0 ∧ demoLk.conn = 1 ∧ demoLk.conn ≠ demoCo.conn ∧
    demoW2.nextConn = 2 ∧
    (acquire demoLk demoCo 0 false 0 demoW2).2.connTrace = [demoLk.conn] ∧
    (acquire demoLk demoCo 0 false 0 demoW2).2.connTrace ≠ [demoCo.conn] := by
  refine ⟨rfl, rfl, ?_, rfl, rfl, ?_⟩ <;> decide

/-- C9 as amended: the coordinator opens one connection at `_start`,
but every lock handle created through `get_lock` opens an additional
connection of its own in `MySQLLock.__init__`, distinct from the
coordinator's; the handle's `acquire` and `release` execute their
store statements through the handle's own connection. -/
theorem lock_own_connection_amended (member name : String) (now fuel : Nat) (b : Bool)
    (w : World) (lk : LockHandle) (co : CoordState) (w1 : World) :
    ((getLock name (coordStart member w).1 (coordStart member w).2).1.conn
       ≠ (coordStart member w).1.conn) ∧
    (lk ∉ w1.registry → w1.stmtFaults = [] → w1.store.tableExists = true →
      w1.store.rows.any (fun r => r.name = lk.name) = false →
      (acquire lk co now b fuel w1).2.connTrace = w1.connTrace ++ [lk.conn]) ∧
    (lk ∈ w1.registry → w1.stmtFaults = [] → w1.store.tableExists = true →
      (release lk co w1).2.connTrace = w1.connTrace ++ [lk.conn]) := by
  refine ⟨?_, ?_, ?_⟩
  · simp [getLock, coordStart, allocConn]
  · intro h1 h2 h3 h4
    rw [acquire, acquireWith,
        retryLoop_ret (lockBody_insert_ok id lk co now b w1 h1 h2 h3 h4) fuel]
  · intro h1 h2 h3
    simp [release, execStmt, sqlDelete, h1, h2, h3]

/-- Witness for C9: the concrete coordinator/handle pair of the
counterexample scenario, with the acquire and release statement traces
showing the handle's own connection. -/
theorem lock_own_connection_amended_witness :
    ((getLock "L" (coordStart "m" (freshWorld ⟨true, []⟩)).1
        (coordStart "m" (freshWorld ⟨true, []⟩)).2).1.conn
       ≠ (coordStart "m" (freshWorld ⟨true, []⟩)).1.conn) ∧
    ((⟨"L", 1⟩ : LockHandle) ∈ wHoldsL.registry ∧ wHoldsL.stmtFaults = [] ∧
     wHoldsL.store.tableExists = true ∧
     (release ⟨"L", 1⟩ ⟨"me", 0⟩ wHoldsL).2.connTrace = wHoldsL.connTrace ++ [1]) ∧
    ((⟨"L", 9⟩ : LockHandle) ∉ (freshWorld ⟨true, []⟩).registry ∧
     (acquire ⟨"L", 9⟩ ⟨"me", 0⟩ 3 false 0 (freshWorld ⟨true, []⟩)).2.connTrace
       = (freshWorld ⟨true, []⟩).connTrace ++ [9]) :=
  ⟨(lock_own_connection_amended "m" "L" 0 0 false (freshWorld ⟨true, []⟩)
      ⟨"L", 1⟩ ⟨"me", 0⟩ wHoldsL).1,
   ⟨by decide, rfl, rfl,
    (lock_own_connection_amended "m" "L" 0 0 false (freshWorld ⟨true, []⟩)
       ⟨"L", 1⟩ ⟨"me", 0⟩ wHoldsL).2.2 (by decide) rfl rfl⟩,
   ⟨by decide,
    (lock_own_connection_amended "m" "L" 3 0 false (freshWorld ⟨true, []⟩)
       ⟨"L", 9⟩ ⟨"me", 0⟩ (freshWorld ⟨true, []⟩)).2.1 (by decide) rfl rfl rfl⟩⟩

/-- C10: `MySQLDriver.heartbeat` returns normally (Python's `None`)
for every state of the held-lock list and never raises: whatever an
individual lock's heartbeat does — any store error, any non-store
error, in particular the `AttributeError` the actual
`MySQLLock.heartbeat` raises from its misspelled attribute lookup —
the bare `except: continue` swallows it and the loop goes on to the
remaining locks, attempting every held lock.  Instantiated at the
actual per-lock heartbeat, the driver call returns `None`, the world
unchanged, with every lock attempted. -/
theorem driver_heartbeat_swallows (g : LockHandle → World → LockRes × World)
    (co : CoordState) (w : World) :
    (driverHeartbeatWith g w).1 = .retNone ∧
    (driverHeartbeatWith g w).2.2 = w.registry ∧
    driverHeartbeat co w = (.retNone, w, w.registry) := by
  refine ⟨rfl, ?_, ?_⟩
  · simpa [driverHeartbeatWith] using heartbeatLoop_attempted g w.registry w
  · have h1 := heartbeatLoop_actual co w.registry w
    have h2 := heartbeatLoop_attempted (fun l => lockHeartbeat l co) w.registry w
    simp [driverHeartbeat, driverHeartbeatWith, Prod.ext_iff, h1, h2]

end ToozMySQL


